import Mathlib

/-!
Shallow embedding of the video-editor client's session state model:
the trim-range selection handlers (TrimControls / VideoPreview), the
merge-list model (VideoMerger), and the dispatch orchestration
(VideoUploader.handleConvert / handleTrimOnly, VideoMerger.handleMerge,
App-level busy/result callbacks).  Times are modelled as rationals,
file sizes as naturals, raw file bytes by the file's name.
-/

namespace EditAI

/-- The `TrimData` record `{ startTime, endTime, duration }` shared by
App, VideoUploader and TrimControls. -/
structure TrimData where
  startTime : ℚ
  endTime : ℚ
  duration : ℚ
deriving DecidableEq, Repr

/-- `TrimControls.handleStartTimeChange` (identically
`VideoPreview.handleStartTimeChange`): takes the dragged value as the new
start bound; if it reaches or passes the end bound, pushes the end bound
to `min (value + 1) duration`; otherwise leaves the end bound unchanged.
The handler performs no clamping of its own. -/
def handleStartTimeChange (t : TrimData) (value : ℚ) : TrimData :=
  let newStartTime := value
  if newStartTime ≥ t.endTime then
    let newEndTime := min (newStartTime + 1) t.duration
    ⟨newStartTime, newEndTime, t.duration⟩
  else
    ⟨newStartTime, t.endTime, t.duration⟩

/-- `TrimControls.handleEndTimeChange` (identically
`VideoPreview.handleEndTimeChange`): takes the dragged value as the new
end bound; if it reaches or passes the start bound, pushes the start
bound to `max (value - 1) 0`; otherwise leaves the start bound
unchanged. -/
def handleEndTimeChange (t : TrimData) (value : ℚ) : TrimData :=
  let newEndTime := value
  if newEndTime ≤ t.startTime then
    let newStartTime := max (newEndTime - 1) 0
    ⟨newStartTime, newEndTime, t.duration⟩
  else
    ⟨t.startTime, newEndTime, t.duration⟩

/-- The strict trim invariant stated by the spec:
`0 ≤ startTime < endTime ≤ duration`. -/
def TrimInvariant (t : TrimData) : Prop :=
  0 ≤ t.startTime ∧ t.startTime < t.endTime ∧ t.endTime ≤ t.duration

instance (t : TrimData) : Decidable (TrimInvariant t) := by
  unfold TrimInvariant; infer_instance

/-- `VideoPreview` component state: `duration`, `startTime`, `endTime`
(all initialised to 0 by `useState(0)`), together with the last triple
passed to the `onTrimChange` callback. -/
structure PreviewState where
  duration : ℚ
  startTime : ℚ
  endTime : ℚ
  emitted : Option TrimData
deriving DecidableEq, Repr

/-- The initial `VideoPreview` state: all three times 0, nothing emitted. -/
def initialPreviewState : PreviewState := ⟨0, 0, 0, none⟩

/-- `VideoPreview.handleLoadedMetadata`: on metadata load with the
video's duration, sets `duration` and `endTime` to it (leaving
`startTime` as it is) and emits `(0, duration, duration)` to the parent. -/
def handleLoadedMetadata (s : PreviewState) (videoDuration : ℚ) : PreviewState :=
  { s with duration := videoDuration, endTime := videoDuration,
           emitted := some ⟨0, videoDuration, videoDuration⟩ }

/-! ## Merge-list model (`VideoMerger`) -/

/-- A candidate file as seen by the client: name, mime type, byte size. -/
structure MergeFile where
  name : String
  type : String
  size : ℕ
deriving DecidableEq, Repr

/-- The allow-list of container mime types shared by
`VideoUploader.handleFileSelect` and `VideoMerger.handleFileSelect`. -/
def allowedTypes : List String :=
  ["video/mp4", "video/avi", "video/mov", "video/quicktime", "video/x-msvideo", "video/webm"]

/-- The per-file size ceiling: `100 * 1024 * 1024` bytes. -/
def sizeLimit : ℕ := 100 * 1024 * 1024

/-- The per-file validation of `VideoMerger.handleFileSelect`: `none` when
the file is accepted, otherwise the error message passed to `setError`. -/
def validateFile (f : MergeFile) : Option String :=
  if f.type ∉ allowedTypes then some (f.name ++ " is not a valid video file")
  else if f.size > sizeLimit then some (f.name ++ " is too large (max 100MB)")
  else none

/-- `VideoMerger` component state relevant to the merge list: the ordered
`videos` sequence and the single `error` message slot. -/
structure MergerState where
  videos : List MergeFile
  error : String
deriving DecidableEq, Repr

/-- `VideoMerger.handleFileSelect`: iterates over the batch, calling
`setError` with a message for each invalid file (each call overwrites the
previous message) and collecting the valid ones; afterwards, when at least
one file was valid, appends the valid files to `videos` and clears the
error with `setError('')`.  Returns the resulting state together with the
trace of error messages set during the loop (in order). -/
def handleFileSelect (s : MergerState) (files : List MergeFile) : MergerState × List String :=
  let folded := files.foldl (fun acc f =>
    match validateFile f with
    | some msg => (acc.1, acc.2 ++ [msg])
    | none => (acc.1 ++ [f], acc.2)) (([] : List MergeFile), ([] : List String))
  let validFiles := folded.1
  let errs := folded.2
  let errAfterLoop :=
    match errs.getLast? with
    | some m => m
    | none => s.error
  if 0 < validFiles.length then
    (⟨s.videos ++ validFiles, ""⟩, errs)
  else
    (⟨s.videos, errAfterLoop⟩, errs)

/-- `VideoMerger.removeVideo`: drops the entry at `index`. -/
def removeVideo (videos : List MergeFile) (index : ℕ) : List MergeFile :=
  videos.eraseIdx index

/-- `VideoMerger.moveVideo`: `splice(fromIndex, 1)` removes the entry at
`fromIndex`, then `splice(toIndex, 0, moved)` reinserts it at `toIndex`.
The UI only calls this with an in-range `fromIndex` (the move-up /
move-down buttons are disabled at the boundaries), so the out-of-range
branch returns the list unchanged. -/
def moveVideo {α : Type} (videos : List α) (fromIndex toIndex : ℕ) : List α :=
  match videos.get? fromIndex with
  | some moved => (videos.eraseIdx fromIndex).insertIdx toIndex moved
  | none => videos

/-! ## Orchestration: App-level session state and the dispatch handlers -/

/-- Outcome of the external HTTP exchange, supplied by the environment:
`ok success fileId` models a completed request whose JSON body carries a
`success` flag and a `file_id`; `err payload` models a thrown error whose
`err.response?.data?.error` is `payload` (absent for transport errors). -/
inductive HttpOutcome where
  | ok (success : Bool) (fileId : String)
  | err (payload : Option String)
deriving DecidableEq, Repr

/-- App-level session state (`App`): the selected file's name, the last
emitted trim triple, the two busy flags and the displayed result. -/
structure AppState where
  selectedFile : Option String
  trimData : Option TrimData
  isConverting : Bool
  convertedVideo : Option (String × String)
  isMerging : Bool
deriving DecidableEq, Repr

/-- `App.handleConversionStart`: sets the busy flag and clears any
previous conversion result. -/
def handleConversionStart (s : AppState) : AppState :=
  { s with isConverting := true, convertedVideo := none }

/-- `App.handleConversionComplete`: stores the result and clears the busy
flag. -/
def handleConversionComplete (s : AppState) (fileId : String) : AppState :=
  { s with convertedVideo := some (fileId, "http://localhost:5000/download/" ++ fileId),
           isConverting := false }

/-- `App.handleMergeStart`: sets the merge busy flag and clears any
previous result. -/
def handleMergeStart (s : AppState) : AppState :=
  { s with isMerging := true, convertedVideo := none }

/-- `App.handleMergeComplete`: stores the merge result and clears the
merge busy flag. -/
def handleMergeComplete (s : AppState) (fileId : String) : AppState :=
  { s with convertedVideo := some (fileId, "http://localhost:5000/download/" ++ fileId),
           isMerging := false }

/-- The `VideoUploader` component's session view: the App state it mutates
through its callbacks plus its local `error` message slot. -/
structure ConvertSession where
  app : AppState
  uploaderError : String
deriving DecidableEq, Repr

/-- A built outbound request: target URL, the appended video file, and the
`startTime`/`endTime` form fields when they were appended. -/
structure DispatchedRequest where
  url : String
  video : String
  bounds : Option (ℚ × ℚ)
deriving DecidableEq, Repr

/-- The form built by `VideoUploader.handleConvert`: always appends the
clip; appends `startTime` and `endTime` exactly when `trimData` is
non-null. -/
def buildConvertForm (file : String) (trimData : Option TrimData) : DispatchedRequest :=
  ⟨"http://localhost:5000/upload", file, trimData.map (fun t => (t.startTime, t.endTime))⟩

/-- `VideoUploader.handleConvert`, parametrised by the HTTP outcome the
environment produces for the dispatched request.  Returns the resulting
session and the request that was dispatched (`none` when the guard
refused).  Guard: `if (!selectedFile) return`.  On dispatch it calls
`onConversionStart()` and clears the local error; on a success-flagged
response it calls `onConversionComplete`; on a thrown error it sets the
local error to the payload or the generic fallback and then calls
`onConversionStart()` again (the code comment reads "Reset converting
state"). -/
def handleConvert (s : ConvertSession) (res : HttpOutcome) :
    ConvertSession × Option DispatchedRequest :=
  match s.app.selectedFile with
  | none => (s, none)
  | some file =>
    let s1 : ConvertSession := ⟨handleConversionStart s.app, ""⟩
    let req := buildConvertForm file s.app.trimData
    match res with
    | .ok success fileId =>
      if success then (⟨handleConversionComplete s1.app fileId, s1.uploaderError⟩, some req)
      else (s1, some req)
    | .err payload =>
      let s2 : ConvertSession :=
        ⟨s1.app, payload.getD "Conversion failed. Please try again."⟩
      (⟨handleConversionStart s2.app, s2.uploaderError⟩, some req)

/-- `VideoUploader.handleTrimOnly`, parametrised the same way.  Guard:
`if (!selectedFile || !trimData) return` — presence of the two values is
all that is checked.  When it proceeds, the form always carries the two
trim bounds and is posted to the `/trim` target. -/
def handleTrimOnly (s : ConvertSession) (res : HttpOutcome) :
    ConvertSession × Option DispatchedRequest :=
  match s.app.selectedFile, s.app.trimData with
  | some file, some t =>
    let s1 : ConvertSession := ⟨handleConversionStart s.app, ""⟩
    let req : DispatchedRequest :=
      ⟨"http://localhost:5000/trim", file, some (t.startTime, t.endTime)⟩
    match res with
    | .ok success fileId =>
      if success then (⟨handleConversionComplete s1.app fileId, s1.uploaderError⟩, some req)
      else (s1, some req)
    | .err payload =>
      let s2 : ConvertSession :=
        ⟨s1.app, payload.getD "Trimming failed. Please try again."⟩
      (⟨handleConversionStart s2.app, s2.uploaderError⟩, some req)
  | _, _ => (s, none)

/-- The `VideoMerger` component's session view: the App state it mutates
through its callbacks plus its merge-list state. -/
structure MergeSession where
  app : AppState
  merger : MergerState
deriving DecidableEq, Repr

/-- A built outbound merge request: target URL, the clip parts in order
(`video0..videoN-1`), and the `videoCount` field. -/
structure MergeRequest where
  url : String
  parts : List MergeFile
  videoCount : ℕ
deriving DecidableEq, Repr

/-- `VideoMerger.handleMerge`, parametrised by the HTTP outcome.  Guard:
fewer than 2 videos sets an error and returns without dispatch.
Otherwise it calls `onMergeStart()`, clears the error, posts all parts in
sequence order with `videoCount`, and handles the response like
`handleConvert` (including calling `onMergeStart()` again in the catch). -/
def handleMerge (s : MergeSession) (res : HttpOutcome) :
    MergeSession × Option MergeRequest :=
  if s.merger.videos.length < 2 then
    (⟨s.app, ⟨s.merger.videos, "Please select at least 2 videos to merge"⟩⟩, none)
  else
    let s1 : MergeSession := ⟨handleMergeStart s.app, ⟨s.merger.videos, ""⟩⟩
    let req : MergeRequest :=
      ⟨"http://localhost:5000/merge", s.merger.videos, s.merger.videos.length⟩
    match res with
    | .ok success fileId =>
      if success then (⟨handleMergeComplete s1.app fileId, s1.merger⟩, some req)
      else (s1, some req)
    | .err payload =>
      (⟨handleMergeStart s1.app, ⟨s1.merger.videos, payload.getD "Merge failed. Please try again."⟩⟩,
        some req)

end EditAI

/-! ## Claim theorems -/

namespace EditAI

/-- C1: on an externally failing convert dispatch the error message is the
service payload or the generic fallback and the clip and trim range are
untouched — but the catch block invokes `onConversionStart()` (despite its
"Reset converting state" comment), which sets `isConverting` to `true`,
so the Busy flag is NOT cleared.  Evaluated at a concrete failing input:
a selected clip with a full-range trim, transport error without payload,
and the same with a service payload. -/
theorem C1_failure_leaves_busy_flag_set :
    ((handleConvert ⟨⟨some "clip.mp4", some ⟨0, 10, 10⟩, false, none, false⟩, ""⟩
        (.err none)).1.uploaderError = "Conversion failed. Please try again.") ∧
     ((handleConvert ⟨⟨some "clip.mp4", some ⟨0, 10, 10⟩, false, none, false⟩, ""⟩
        (.err (some "ffmpeg exploded"))).1.uploaderError = "ffmpeg exploded") ∧
    ((handleConvert ⟨⟨some "clip.mp4", some ⟨0, 10, 10⟩, false, none, false⟩, ""⟩
        (.err none)).1.app.selectedFile = some "clip.mp4") ∧
    ((handleConvert ⟨⟨some "clip.mp4", some ⟨0, 10, 10⟩, false, none, false⟩, ""⟩
        (.err none)).1.app.trimData = some ⟨0, 10, 10⟩) ∧
    ((handleConvert ⟨⟨some "clip.mp4", some ⟨0, 10, 10⟩, false, none, false⟩, ""⟩
        (.err none)).1.app.isConverting = true) := by
  simp [handleConvert, handleConversionStart, buildConvertForm]

/-- C2 (counterexample): from the valid state `(0, 10, 10)` the in-range
drag `setStart(10)` produces `(10, 10, 10)`, where the two bounds are
equal — the strict invariant `0 ≤ startTime < endTime ≤ duration` fails. -/
theorem C2_strict_invariant_counterexample :
    TrimInvariant ⟨0, 10, 10⟩ ∧ 0 < (10 : ℚ) ∧
    0 ≤ (10 : ℚ) ∧ (10 : ℚ) ≤ (10 : ℚ) ∧
    ¬ TrimInvariant (handleStartTimeChange ⟨0, 10, 10⟩ 10) := by
  norm_num [TrimInvariant, handleStartTimeChange, min_def]

/-- C2 (amended): for every valid state and in-range drag, the weakened
invariant `0 ≤ startTime ≤ endTime ≤ duration` holds after `setStart` and
`setEnd`; the strict bound `startTime < endTime` survives except at the
extremes, i.e. it holds after `setStart(v)` whenever `v < duration` and
after `setEnd(v)` whenever `0 < v`. -/
theorem C2_weak_invariant_preserved (t : TrimData) (v : ℚ)
    (hinv : TrimInvariant t) (hv0 : 0 ≤ v) (hvd : v ≤ t.duration) :
    (0 ≤ (handleStartTimeChange t v).startTime ∧
     (handleStartTimeChange t v).startTime ≤ (handleStartTimeChange t v).endTime ∧
     (handleStartTimeChange t v).endTime ≤ (handleStartTimeChange t v).duration ∧
     (v < t.duration →
       (handleStartTimeChange t v).startTime < (handleStartTimeChange t v).endTime)) ∧
    (0 ≤ (handleEndTimeChange t v).startTime ∧
     (handleEndTimeChange t v).startTime ≤ (handleEndTimeChange t v).endTime ∧
     (handleEndTimeChange t v).endTime ≤ (handleEndTimeChange t v).duration ∧
     (0 < v →
       (handleEndTimeChange t v).startTime < (handleEndTimeChange t v).endTime)) := by
  obtain ⟨h1, h2, h3⟩ := hinv
  refine ⟨?_, ?_⟩
  · simp only [handleStartTimeChange]
    split_ifs with hge
    · exact ⟨hv0, le_min (by linarith) hvd, min_le_right _ _, fun h => lt_min (by linarith) h⟩
    · exact ⟨hv0, le_of_lt (lt_of_not_ge hge), h3, fun _ => lt_of_not_ge hge⟩
  · simp only [handleEndTimeChange]
    split_ifs with hle
    · exact ⟨le_max_right _ _, max_le (by linarith) hv0, hvd, fun h => max_lt (by linarith) h⟩
    · exact ⟨h1, le_of_lt (lt_of_not_ge fun hc => hle hc), hvd,
        fun _ => lt_of_not_ge fun hc => hle hc⟩

/-- Witness for C2 (amended) at the state `(0, 10, 10)` and drag 5. -/
theorem C2_weak_invariant_preserved_witness :
    0 ≤ (handleStartTimeChange ⟨0, 10, 10⟩ 5).startTime ∧
    (handleStartTimeChange ⟨0, 10, 10⟩ 5).startTime ≤
      (handleStartTimeChange ⟨0, 10, 10⟩ 5).endTime := by
  have h := C2_weak_invariant_preserved ⟨0, 10, 10⟩ 5
    (by norm_num [TrimInvariant]) (by norm_num) (by norm_num)
  exact ⟨h.1.1, h.1.2.1⟩

end EditAI

namespace EditAI

/-- C3 (counterexample): in a batch of 3 mp4 files where only the 2nd
exceeds the 100 MiB ceiling, the 1st and 3rd are appended in order and
the loop sets exactly one error naming the 2nd file — but because at
least one file was valid, `setError('')` then clears it, so afterwards
the error state is empty rather than naming the 2nd file. -/
theorem C3_error_cleared_counterexample :
    (handleFileSelect ⟨[], ""⟩
        [⟨"a.mp4", "video/mp4", 1000⟩, ⟨"b.mp4", "video/mp4", 209715200⟩,
         ⟨"c.mp4", "video/mp4", 2000⟩]).1.videos =
      [⟨"a.mp4", "video/mp4", 1000⟩, ⟨"c.mp4", "video/mp4", 2000⟩] ∧
    (handleFileSelect ⟨[], ""⟩
        [⟨"a.mp4", "video/mp4", 1000⟩, ⟨"b.mp4", "video/mp4", 209715200⟩,
         ⟨"c.mp4", "video/mp4", 2000⟩]).2 =
      ["b.mp4 is too large (max 100MB)"] ∧
    (handleFileSelect ⟨[], ""⟩
        [⟨"a.mp4", "video/mp4", 1000⟩, ⟨"b.mp4", "video/mp4", 209715200⟩,
         ⟨"c.mp4", "video/mp4", 2000⟩]).1.error = "" ∧
    (handleFileSelect ⟨[], ""⟩
        [⟨"a.mp4", "video/mp4", 1000⟩, ⟨"b.mp4", "video/mp4", 209715200⟩,
         ⟨"c.mp4", "video/mp4", 2000⟩]).1.error ≠
      "b.mp4 is too large (max 100MB)" := by
  refine ⟨?_, ?_, ?_, ?_⟩ <;> simp [handleFileSelect, validateFile, allowedTypes, sizeLimit]

/-- C3 (amended): for every batch of 3 files where only the 2nd exceeds
the size ceiling, the list gains the 1st and 3rd in original order and
the loop sets exactly one transient error naming the 2nd file and its
reason; the error is then cleared (the batch contained valid files), so
no error remains reported afterwards. -/
theorem C3_batch_partial_accept (s : MergerState) (f1 f2 f3 : MergeFile)
    (h1t : f1.type ∈ allowedTypes) (h1s : f1.size ≤ sizeLimit)
    (h2t : f2.type ∈ allowedTypes) (h2s : sizeLimit < f2.size)
    (h3t : f3.type ∈ allowedTypes) (h3s : f3.size ≤ sizeLimit) :
    handleFileSelect s [f1, f2, f3] =
      (⟨s.videos ++ [f1, f3], ""⟩, [f2.name ++ " is too large (max 100MB)"]) := by
  have v1 : validateFile f1 = none := by
    simp [validateFile, h1t, not_lt.mpr h1s]
  have v2 : validateFile f2 = some (f2.name ++ " is too large (max 100MB)") := by
    simp [validateFile, h2t, h2s]
  have v3 : validateFile f3 = none := by
    simp [validateFile, h3t, not_lt.mpr h3s]
  simp [handleFileSelect, v1, v2, v3]

/-- Witness for C3 (amended) at a concrete batch. -/
theorem C3_batch_partial_accept_witness :
    handleFileSelect ⟨[], ""⟩
        [⟨"a.mp4", "video/mp4", 1000⟩, ⟨"b.mp4", "video/mp4", 209715200⟩,
         ⟨"c.mp4", "video/mp4", 2000⟩] =
      (⟨[⟨"a.mp4", "video/mp4", 1000⟩, ⟨"c.mp4", "video/mp4", 2000⟩], ""⟩,
       ["b.mp4 is too large (max 100MB)"]) := by
  have h := C3_batch_partial_accept ⟨[], ""⟩
    ⟨"a.mp4", "video/mp4", 1000⟩ ⟨"b.mp4", "video/mp4", 209715200⟩
    ⟨"c.mp4", "video/mp4", 2000⟩
    (by simp [allowedTypes]) (by norm_num [sizeLimit])
    (by simp [allowedTypes]) (by norm_num [sizeLimit])
    (by simp [allowedTypes]) (by norm_num [sizeLimit])
  simpa using h

/-- C4 (counterexample): with a full-duration trim range present
(`startTime = 0`, `endTime = duration = 10`, so not strictly narrower),
the convert form still carries the two bounds, contradicting "otherwise
the clip is sent with no bounds". -/
theorem C4_full_range_counterexample :
    ¬ ((0 : ℚ) > 0 ∨ (10 : ℚ) < 10) ∧
    (buildConvertForm "clip.mp4" (some ⟨0, 10, 10⟩)).bounds = some (0, 10) := by
  norm_num [buildConvertForm]

/-- C4 (amended): the convert form carries the two trim bounds if and
only if a trim range is present (`trimData` non-null), regardless of
whether it is narrower than the full duration; when present, the bounds
sent are exactly `(startTime, endTime)`. -/
theorem C4_bounds_iff_trimdata_present (f : String) (td : Option TrimData) :
    ((buildConvertForm f td).bounds.isSome ↔ td.isSome) ∧
    (∀ t, td = some t → (buildConvertForm f td).bounds = some (t.startTime, t.endTime)) := by
  cases td <;> simp [buildConvertForm]

/-- Witness for C4 (amended) at a concrete present trim range. -/
theorem C4_bounds_iff_trimdata_present_witness :
    (buildConvertForm "clip.mp4" (some ⟨0, 10, 10⟩)).bounds =
      some ((⟨0, 10, 10⟩ : TrimData).startTime, (⟨0, 10, 10⟩ : TrimData).endTime) :=
  (C4_bounds_iff_trimdata_present "clip.mp4" (some ⟨0, 10, 10⟩)).2 ⟨0, 10, 10⟩ rfl

/-- C6 (counterexample): with a clip selected and the degenerate trim
range `(0, 0, 0)` (duration = 0) present, `handleTrimOnly` does not
refuse: a request is dispatched to the external service. -/
theorem C6_degenerate_dispatch_counterexample :
    (⟨0, 0, 0⟩ : TrimData).duration = 0 ∧
    (handleTrimOnly ⟨⟨some "clip.mp4", some ⟨0, 0, 0⟩, false, none, false⟩, ""⟩
        (.ok true "f1")).2 ≠ none := by
  refine ⟨rfl, ?_⟩
  simp [handleTrimOnly, handleConversionStart, handleConversionComplete]

/-- C6 (amended): a trim-only dispatch proceeds if and only if a clip and
a trim range are present (both non-null); the guard checks presence only,
so a degenerate trim range with duration = 0 is not refused. -/
theorem C6_dispatch_iff_clip_and_trim_present (s : ConvertSession) (res : HttpOutcome) :
    ((handleTrimOnly s res).2).isSome ↔
      (s.app.selectedFile.isSome ∧ s.app.trimData.isSome) := by
  rcases s with ⟨⟨sf, td, ic, cv, im⟩, e⟩
  cases sf <;> cases td <;> cases res <;>
    simp [handleTrimOnly, handleConversionStart, handleConversionComplete]
  · rename_i success _
    cases success <;> simp

end EditAI

namespace EditAI

/-- C5 (counterexample): `setStart` performs no clamping — with state
`(2, 4, 10)` the out-of-range value `-5` passes straight through, so the
resulting start bound is `-5` rather than the clamped `0`. -/
theorem C5_no_clamping_counterexample :
    (handleStartTimeChange ⟨2, 4, 10⟩ (-5)).startTime = -5 ∧
    (handleStartTimeChange ⟨2, 4, 10⟩ (-5)).startTime ≠ max 0 (min (-5 : ℚ) 10) ∧
    ¬ 0 ≤ (handleStartTimeChange ⟨2, 4, 10⟩ (-5)).startTime := by
  norm_num [handleStartTimeChange]

/-- C5 (amended): `setStart(v)` sets the start bound to `v` unclamped
(the range control, not the handler, restricts `v` to `[0, duration]`);
if `v ≥ endTime` it sets `endTime = min (v + 1) duration`, otherwise it
leaves `endTime` unchanged; the duration is never changed.  In
particular, with duration 10 and endTime 4, `setStart(6)` yields
endTime `min 7 10 = 7`. -/
theorem C5_setStart_behavior (t : TrimData) (v : ℚ) :
    (handleStartTimeChange t v).startTime = v ∧
    (handleStartTimeChange t v).duration = t.duration ∧
    (v ≥ t.endTime → (handleStartTimeChange t v).endTime = min (v + 1) t.duration) ∧
    (v < t.endTime → (handleStartTimeChange t v).endTime = t.endTime) := by
  simp only [handleStartTimeChange]
  split_ifs with h
  · exact ⟨rfl, rfl, fun _ => rfl, fun hlt => absurd hlt (not_lt.mpr h)⟩
  · exact ⟨rfl, rfl, fun hge => absurd hge h, fun _ => rfl⟩

/-- Witness for C5 (amended): duration 10, endTime 4, `setStart(6)`
yields endTime 7. -/
theorem C5_setStart_behavior_witness :
    (6 : ℚ) ≥ (4 : ℚ) ∧ (handleStartTimeChange ⟨0, 4, 10⟩ 6).endTime = 7 := by
  refine ⟨by norm_num, ?_⟩
  have h := (C5_setStart_behavior ⟨0, 4, 10⟩ 6).2.2.1 (by norm_num)
  rw [h]; norm_num

end EditAI

namespace EditAI

/-- C7: `moveVideo` removes the entry at `fromIndex` and reinserts it at
`toIndex`; in particular `move(2, 0)` on `[a, b, c, d]` yields
`[c, a, b, d]`, for arbitrary entries. -/
theorem C7_move_2_0 {α : Type} (a b c d : α) :
    moveVideo [a, b, c, d] 2 0 = [c, a, b, d] := rfl

/-- C8: a merge dispatch from a list of fewer than 2 videos is refused —
no request is built, the App state (busy flag, result) is untouched, the
merge list is unchanged, and the user-facing message is set. -/
theorem C8_merge_refused_below_two (s : MergeSession) (res : HttpOutcome)
    (h : s.merger.videos.length < 2) :
    (handleMerge s res).2 = none ∧
    (handleMerge s res).1.app = s.app ∧
    (handleMerge s res).1.merger.videos = s.merger.videos ∧
    (handleMerge s res).1.merger.error = "Please select at least 2 videos to merge" := by
  simp [handleMerge, h]

/-- Witness for C8 at a concrete length-1 merge list. -/
theorem C8_merge_refused_below_two_witness :
    ([(⟨"a.mp4", "video/mp4", 5⟩ : MergeFile)]).length < 2 ∧
    (handleMerge ⟨⟨none, none, false, none, false⟩, ⟨[⟨"a.mp4", "video/mp4", 5⟩], ""⟩⟩
        (.ok true "f")).2 = none := by
  refine ⟨by norm_num, ?_⟩
  exact (C8_merge_refused_below_two ⟨⟨none, none, false, none, false⟩,
    ⟨[⟨"a.mp4", "video/mp4", 5⟩], ""⟩⟩ (.ok true "f") (by norm_num)).1

/-- C9: for every duration > 0, firing `handleLoadedMetadata` from the
initial `VideoPreview` state leaves `startTime = 0`, sets
`endTime = duration`, and emits the triple `(0, duration, duration)` to
the owning session. -/
theorem C9_duration_known (d : ℚ) (hd : 0 < d) :
    (handleLoadedMetadata initialPreviewState d).startTime = 0 ∧
    (handleLoadedMetadata initialPreviewState d).endTime =
      (handleLoadedMetadata initialPreviewState d).duration ∧
    (handleLoadedMetadata initialPreviewState d).endTime = d ∧
    (handleLoadedMetadata initialPreviewState d).emitted = some ⟨0, d, d⟩ :=
  ⟨rfl, rfl, rfl, rfl⟩

/-- Witness for C9 at duration 10. -/
theorem C9_duration_known_witness :
    (0 : ℚ) < 10 ∧ (handleLoadedMetadata initialPreviewState 10).startTime = 0 :=
  ⟨by norm_num, (C9_duration_known 10 (by norm_num)).1⟩

/-- C10: when a convert or merge dispatch receives an HTTP-success
response whose `success` flag is false, the handler reports no result
(`convertedVideo` stays cleared), surfaces no error (the error slot stays
cleared), and the Busy flag set at dispatch start is never cleared. -/
theorem C10_success_false_leaves_session_busy (cs : ConvertSession) (ms : MergeSession)
    (fid gid : String)
    (hc : cs.app.selectedFile.isSome) (hm : 2 ≤ ms.merger.videos.length) :
    ((handleConvert cs (.ok false fid)).1.app.isConverting = true ∧
     (handleConvert cs (.ok false fid)).1.app.convertedVideo = none ∧
     (handleConvert cs (.ok false fid)).1.uploaderError = "") ∧
    ((handleMerge ms (.ok false gid)).1.app.isMerging = true ∧
     (handleMerge ms (.ok false gid)).1.app.convertedVideo = none ∧
     (handleMerge ms (.ok false gid)).1.merger.error = "") := by
  obtain ⟨f, hf⟩ := Option.isSome_iff_exists.mp hc
  constructor
  · simp [handleConvert, hf, handleConversionStart, buildConvertForm]
  · simp [handleMerge, Nat.not_lt.mpr hm, handleMergeStart]

/-- Witness for C10 at a concrete convert session and merge session. -/
theorem C10_success_false_leaves_session_busy_witness :
    ((handleConvert ⟨⟨some "clip.mp4", none, false, none, false⟩, ""⟩
        (.ok false "f1")).1.app.isConverting = true) ∧
    ((handleMerge ⟨⟨none, none, false, none, false⟩,
        ⟨[⟨"a.mp4", "video/mp4", 5⟩, ⟨"b.mp4", "video/mp4", 6⟩], ""⟩⟩
        (.ok false "f2")).1.app.isMerging = true) := by
  have h := C10_success_false_leaves_session_busy
    ⟨⟨some "clip.mp4", none, false, none, false⟩, ""⟩
    ⟨⟨none, none, false, none, false⟩,
      ⟨[⟨"a.mp4", "video/mp4", 5⟩, ⟨"b.mp4", "video/mp4", 6⟩], ""⟩⟩
    "f1" "f2" (by simp) (by norm_num)
  exact ⟨h.1.1, h.2.1⟩

end EditAI
